import Mathlib

/-!
Shallow embedding of `examples/mnist_test_oss.py` (fairscale MNIST OSS
example).  The script's own logic — CLI argument parsing, the `Net`
module's shape pipeline, and the `train` driver's control flow — is
translated into executable Lean definitions; external framework calls
(process-group init, dataset download, device ops, clock reads) are
represented by an explicit environment whose outcomes the driver threads
through, and the driver's observable behaviour is a trace of events.
-/

namespace Mnist

/-- The configuration object produced by `argparse` in `main`:
one field per declared CLI flag, integer flags as `Int` (Python `int`),
float flags as `Rat` (exact model of the parsed decimal literals),
`store_true` flags as `Bool`. -/
structure Args where
  batch_size : Int
  test_batch_size : Int
  epochs : Int
  lr : Rat
  gamma : Rat
  no_cuda : Bool
  dry_run : Bool
  seed : Int
  log_interval : Int
  save_model : Bool
deriving DecidableEq, Repr

/-- The defaults declared in `main`: batch_size=64, test_batch_size=1000,
epochs=14, lr=1.0, gamma=0.7, no_cuda=False, dry_run=False, seed=1,
log_interval=10, save_model=False. -/
def defaultArgs : Args :=
  { batch_size := 64
    test_batch_size := 1000
    epochs := 14
    lr := 1
    gamma := 7 / 10
    no_cuda := false
    dry_run := false
    seed := 1
    log_interval := 10
    save_model := false }

/-- Accumulate a decimal digit string; `none` on any non-digit. -/
def digitsVal : List Char → Nat → Option Nat
  | [], acc => some acc
  | c :: cs, acc =>
    if c.isDigit then digitsVal cs (10 * acc + (c.toNat - 48)) else none

/-- Value of a non-empty all-digit character list. -/
def natOfDigits : List Char → Option Nat
  | [] => none
  | cs => digitsVal cs 0

/-- Model of Python `int(s)` as used by `argparse` for `type=int` flags:
an optional minus sign followed by decimal digits. -/
def pyInt? (s : String) : Option Int :=
  match s.data with
  | '-' :: cs => (natOfDigits cs).map fun n => -(n : Int)
  | cs => (natOfDigits cs).map fun n => (n : Int)

/-- Split a character list at the first dot, if any. -/
def splitAtDot : List Char → List Char × Option (List Char)
  | [] => ([], none)
  | '.' :: rest => ([], some rest)
  | c :: rest =>
    let p := splitAtDot rest
    (c :: p.1, p.2)

/-- Model of Python `float(s)` restricted to the decimal forms the
`type=float` flags use: an optional minus sign, an integer part, and an
optional fractional part after a dot. -/
def pyFloat? (s : String) : Option Rat :=
  let neg : Bool := s.data.headD ' ' = '-'
  let sgn : Rat := if neg then -1 else 1
  let cs : List Char := if neg then s.data.tail else s.data
  let p := splitAtDot cs
  match p.2 with
  | none => (natOfDigits p.1).map fun n => sgn * (n : Rat)
  | some f =>
    match natOfDigits p.1, natOfDigits f with
    | some a, some b => some (sgn * ((a : Rat) + (b : Rat) / (10 : Rat) ^ f.length))
    | _, _ => none

/-- The `argparse` configuration of `main`, folded over the token list.
Each of the ten flags is a named `--` option: the three `store_true`
flags consume one token, the seven valued flags consume the flag token
and one value token.  Any other token — in particular a bare positional
value — is an argparse error (`none`), as `main` declares no positional
arguments. -/
def parseArgsFrom (acc : Args) : List String → Option Args
  | [] => some acc
  | tok :: rest =>
    if tok = "--no_cuda" then parseArgsFrom { acc with no_cuda := true } rest
    else if tok = "--dry_run" then parseArgsFrom { acc with dry_run := true } rest
    else if tok = "--save_model" then parseArgsFrom { acc with save_model := true } rest
    else
      match rest with
      | [] => none
      | v :: rest2 =>
        if tok = "--batch_size" then
          (pyInt? v).bind fun n => parseArgsFrom { acc with batch_size := n } rest2
        else if tok = "--test_batch_size" then
          (pyInt? v).bind fun n => parseArgsFrom { acc with test_batch_size := n } rest2
        else if tok = "--epochs" then
          (pyInt? v).bind fun n => parseArgsFrom { acc with epochs := n } rest2
        else if tok = "--lr" then
          (pyFloat? v).bind fun x => parseArgsFrom { acc with lr := x } rest2
        else if tok = "--gamma" then
          (pyFloat? v).bind fun x => parseArgsFrom { acc with gamma := x } rest2
        else if tok = "--seed" then
          (pyInt? v).bind fun n => parseArgsFrom { acc with seed := n } rest2
        else if tok = "--log_interval" then
          (pyInt? v).bind fun n => parseArgsFrom { acc with log_interval := n } rest2
        else none

/-- Model of `parser.parse_args()` on a given command line, starting from the
declared defaults. -/
def parseArgs (argv : List String) : Option Args :=
  parseArgsFrom defaultArgs argv

/-- Module-level constant `WORLD_SIZE = 2`. -/
def WORLD_SIZE : Nat := 2

/-- Module-level `BACKEND`: NCCL when CUDA is available at import time,
GLOO otherwise. -/
def backendName (cudaAvailable : Bool) : String :=
  if cudaAvailable then ("nccl") else ("gloo")

/-- The keyword arguments `train` passes to the `DataLoader`
constructor: always `batch_size` and `sampler`; on the CUDA path the
dict is updated with `num_workers=1`, `pin_memory=True`, `shuffle=True`. -/
structure Kwargs where
  batch_size : Int
  sampler : Bool
  num_workers : Nat
  pin_memory : Bool
  shuffle : Bool
deriving DecidableEq, Repr

/-- PyTorch `DataLoader.__init__` validation relevant here, in source
order: passing a `sampler` together with `shuffle=True` raises a
`ValueError`; then the `BatchSampler` construction rejects a
non-positive `batch_size` with a `ValueError`. -/
def dataLoaderCheck (kw : Kwargs) : Except String Unit :=
  if kw.sampler ∧ kw.shuffle then
    Except.error ("sampler option is mutually exclusive with shuffle")
  else if kw.batch_size ≤ 0 then
    Except.error ("batch_size should be a positive integer value")
  else Except.ok ()

/-- Length of the `DistributedSampler` with `drop_last=False`:
`ceil(datasetSize / WORLD_SIZE)` indices per rank. -/
def numSamples (datasetSize : Nat) : Nat :=
  (datasetSize + WORLD_SIZE - 1) / WORLD_SIZE

/-- Batches per epoch yielded by the `DataLoader` over the sampler:
`ceil(numSamples / batch_size)`. -/
def numBatches (datasetSize : Nat) (batchSize : Int) : Nat :=
  (numSamples datasetSize + batchSize.toNat - 1) / batchSize.toNat

/-- Observable actions of one `train` invocation, in program order. -/
inductive Event where
  | printBackend (backend : String)
  | distInit (backend : String) (rank : Nat) (worldSize : Nat)
  | setDevice (rank : Nat)
  | loadDataset
  | mkSampler (numReplicas : Nat) (rank : Nat)
  | mkDataLoader (kw : Kwargs)
  | mkOSS (optim : String) (lr : Rat)
  | wrapSDP
  | setEpoch (epoch : Nat)
  | toDevice (epoch : Nat) (batch : Nat)
  | optimStep (epoch : Nat) (batch : Nat)
  | zeroGrad (epoch : Nat) (batch : Nat)
  | forward (epoch : Nat) (batch : Nat)
  | computeLoss (epoch : Nat) (batch : Nat)
  | backward (epoch : Nat) (batch : Nat)
  | printTotalTime (t : Rat)
deriving DecidableEq, Repr

/-- Ambient world of one `train` invocation: CUDA availability at
module load, outcomes of the external framework calls, and the values
returned by successive `time.monotonic()` reads. -/
structure Env where
  cudaAvailable : Bool
  distInitRes : Except String Unit
  setDeviceRes : Except String Unit
  datasetRes : Except String Nat
  clock : Nat → Rat

/-- Body of the `closure` passed to `optimizer.step`, in source order:
`model.zero_grad()`, forward pass, loss computation, `loss.backward()`
(the closure then returns the loss). -/
def closureEvents (e b : Nat) : List Event :=
  [Event.zeroGrad e b, Event.forward e b, Event.computeLoss e b, Event.backward e b]

/-- One iteration of the inner batch loop: move the batch to the
device, then one `optimizer.step(closure)`, which invokes the closure. -/
def batchEvents (e : Nat) (b : Nat) : List Event :=
  Event.toDevice e b :: Event.optimStep e b :: closureEvents e b

/-- One iteration of the epoch loop: `sampler.set_epoch(epoch)`, then
the batch loop over the loader's batches. -/
def epochEvents (nb : Nat) (e : Nat) : List Event :=
  Event.setEpoch e :: (List.range nb).flatMap (batchEvents e)

/-- The whole training loop: `for epoch in range(args.epochs)`. -/
def loopEvents (epochs nb : Nat) : List Event :=
  (List.range epochs).flatMap (epochEvents nb)

/-- The training driver `train(rank, args, use_cuda)`, as a function of
the ambient environment.  Returns the event trace together with the
outcome: `Except.ok ()` (the Python function returns `None`) or the
first uncaught framework error.  Control flow follows the source line
by line; every fallible external call is threaded through `Except`
with no handler. -/
def train (rank : Nat) (args : Args) (use_cuda : Bool) (env : Env) :
    List Event × Except String Unit :=
  let backend := backendName env.cudaAvailable
  let tr0 := [Event.printBackend backend, Event.distInit backend rank WORLD_SIZE]
  match env.distInitRes with
  | Except.error e => (tr0, Except.error e)
  | Except.ok _ =>
    let tr1 := if use_cuda then tr0 ++ [Event.setDevice rank] else tr0
    let devRes := if use_cuda then env.setDeviceRes else Except.ok ()
    match devRes with
    | Except.error e => (tr1, Except.error e)
    | Except.ok _ =>
      let tr2 := tr1 ++ [Event.loadDataset]
      match env.datasetRes with
      | Except.error e => (tr2, Except.error e)
      | Except.ok n =>
        let tr3 := tr2 ++ [Event.mkSampler WORLD_SIZE rank]
        let kw0 : Kwargs :=
          { batch_size := args.batch_size, sampler := true,
            num_workers := 0, pin_memory := false, shuffle := false }
        let kw := if use_cuda then
            { kw0 with num_workers := 1, pin_memory := true, shuffle := true }
          else kw0
        let tr4 := tr3 ++ [Event.mkDataLoader kw]
        match dataLoaderCheck kw with
        | Except.error e => (tr4, Except.error e)
        | Except.ok _ =>
          let tr5 := tr4 ++ [Event.mkOSS ("Adadelta") (1 / 10000), Event.wrapSDP]
          let nb := numBatches n args.batch_size
          let tr6 := tr5 ++ loopEvents args.epochs.toNat nb
          let elapsed := env.clock (2 * args.epochs.toNat + 1) - env.clock 0
          (tr6 ++ [Event.printTotalTime elapsed], Except.ok ())

/-- An environment in which every framework call succeeds. -/
def okEnv (cudaAvailable : Bool) (datasetSize : Nat) (clock : Nat → Rat) : Env :=
  { cudaAvailable := cudaAvailable
    distInitRes := Except.ok ()
    setDeviceRes := Except.ok ()
    datasetRes := Except.ok datasetSize
    clock := clock }

/-- Shape of `nn.Conv2d(inC, outC, k, 1)` (stride 1, no padding):
requires a 4-d input with `inC` channels and spatial extent at least
`k`; output spatial extent shrinks by `k - 1`. -/
def conv2dShape (inC outC k : Nat) : List Nat → Option (List Nat)
  | [b, c, h, w] =>
    if c = inC ∧ k ≤ h ∧ k ≤ w then some [b, outC, h - k + 1, w - k + 1] else none
  | _ => none

/-- Shape semantics of `F.relu`: preserves the shape. -/
def reluShape (s : List Nat) : Option (List Nat) := some s

/-- Shape semantics of `F.max_pool2d(x, k)`: spatial dimensions divided by `k` (floor). -/
def maxPool2dShape (k : Nat) : List Nat → Option (List Nat)
  | [b, c, h, w] => some [b, c, h / k, w / k]
  | _ => none

/-- Shape semantics of `nn.Dropout2d`: preserves the shape. -/
def dropout2dShape (s : List Nat) : Option (List Nat) := some s

/-- Shape semantics of `torch.flatten(x, 1)`: collapse all dimensions after the batch
dimension. -/
def flattenFrom1Shape : List Nat → Option (List Nat)
  | [b, c, h, w] => some [b, c * h * w]
  | _ => none

/-- Shape semantics of `nn.Linear(inF, outF)`: requires a 2-d input whose feature
dimension is `inF`. -/
def linearShape (inF outF : Nat) : List Nat → Option (List Nat)
  | [b, f] => if f = inF then some [b, outF] else none
  | _ => none

/-- Shape semantics of `F.log_softmax(x, dim)`: preserves the shape (the dimension must
exist). -/
def logSoftmaxShape (dim : Nat) (s : List Nat) : Option (List Nat) :=
  if dim < s.length then some s else none

/-- Shape semantics of `Net.forward`, layer by layer in source order:
conv1(1→32, 3) → relu → conv2(32→64, 3) → relu → max_pool2d(2) →
dropout1 → flatten(1) → fc1(9216→128) → relu → dropout2 →
fc2(128→10) → log_softmax(dim=1). -/
def Net.forwardShape (s : List Nat) : Option (List Nat) :=
  (conv2dShape 1 32 3 s).bind fun s1 =>
  (reluShape s1).bind fun s2 =>
  (conv2dShape 32 64 3 s2).bind fun s3 =>
  (reluShape s3).bind fun s4 =>
  (maxPool2dShape 2 s4).bind fun s5 =>
  (dropout2dShape s5).bind fun s6 =>
  (flattenFrom1Shape s6).bind fun s7 =>
  (linearShape 9216 128 s7).bind fun s8 =>
  (reluShape s8).bind fun s9 =>
  (dropout2dShape s9).bind fun s10 =>
  (linearShape 128 10 s10).bind fun s11 =>
  logSoftmaxShape 1 s11

/-- The keyword dict on the CPU path: `batch_size` and `sampler` only
(`DataLoader` defaults for the rest). -/
def cpuKwargs (bs : Int) : Kwargs :=
  { batch_size := bs, sampler := true, num_workers := 0, pin_memory := false, shuffle := false }

/-- The keyword dict on the CUDA path, after
`kwargs.update(num_workers=1, pin_memory=True, shuffle=True)`. -/
def cudaKwargs (bs : Int) : Kwargs :=
  { batch_size := bs, sampler := true, num_workers := 1, pin_memory := true, shuffle := true }

/-- The events of a successful CPU-path run before the training loop. -/
def headerEvents (ca : Bool) (rank : Nat) (bs : Int) : List Event :=
  [Event.printBackend (backendName ca), Event.distInit (backendName ca) rank WORLD_SIZE,
   Event.loadDataset, Event.mkSampler WORLD_SIZE rank, Event.mkDataLoader (cpuKwargs bs),
   Event.mkOSS ("Adadelta") (1 / 10000), Event.wrapSDP]

/-- Events belonging to epoch `e` (the sampler call and the batch-loop
bodies of that epoch). -/
def epochRelated (e : Nat) : Event → Bool
  | Event.setEpoch e2 => e2 == e
  | Event.toDevice e2 _ => e2 == e
  | Event.optimStep e2 _ => e2 == e
  | Event.zeroGrad e2 _ => e2 == e
  | Event.forward e2 _ => e2 == e
  | Event.computeLoss e2 _ => e2 == e
  | Event.backward e2 _ => e2 == e
  | _ => false

/-- Events of the optimizer step (and its closure) for batch `b` of
epoch `e`. -/
def stepRelated (e b : Nat) : Event → Bool
  | Event.optimStep e2 b2 => e2 == e && b2 == b
  | Event.zeroGrad e2 b2 => e2 == e && b2 == b
  | Event.forward e2 b2 => e2 == e && b2 == b
  | Event.computeLoss e2 b2 => e2 == e && b2 == b
  | Event.backward e2 b2 => e2 == e && b2 == b
  | _ => false

/-- Canonicalize the wall-clock value carried by the final print, to
compare traces up to timing. -/
def scrubEvent : Event → Event
  | Event.printTotalTime _ => Event.printTotalTime 0
  | ev => ev

/-- Arguments for a one-epoch run. -/
def argsOneEpoch : Args := { defaultArgs with epochs := 1 }

/-- Arguments differing from the defaults only in fields `train` never
reads (lr, gamma, seed, dry_run). -/
def argsLrZero : Args := { defaultArgs with lr := 0, gamma := 1, seed := 42, dry_run := true }

/-- A fully successful environment whose clock never advances. -/
def envA : Env := okEnv false 4 fun _ => 0

/-- A fully successful environment whose clock advances by one per read. -/
def envB : Env := okEnv false 4 fun k => (k : Rat)

/-- A fully successful environment on a CUDA machine. -/
def envC : Env := okEnv true 4 fun _ => 0

/-- An environment whose process-group initialization fails. -/
def envInitFail : Env :=
  { cudaAvailable := false
    distInitRes := Except.error ("init failed")
    setDeviceRes := Except.ok ()
    datasetRes := Except.ok 4
    clock := fun _ => 0 }

/-! Helper lemmas -/

/-- Normal form of a successful CPU-path (`use_cuda = False`) run:
header, training loop, final timing print; outcome `ok`. -/
theorem train_ok_cpu (rank : Nat) (args : Args) (env : Env) (n : Nat)
    (hd : env.distInitRes = Except.ok ()) (hn : env.datasetRes = Except.ok n)
    (hbs : 0 < args.batch_size) :
    train rank args false env =
      (headerEvents env.cudaAvailable rank args.batch_size
         ++ loopEvents args.epochs.toNat (numBatches n args.batch_size)
         ++ [Event.printTotalTime (env.clock (2 * args.epochs.toNat + 1) - env.clock 0)],
       Except.ok ()) := by
  have hpos : ¬ args.batch_size ≤ 0 := not_le.mpr hbs
  simp [train, hd, hn, dataLoaderCheck, hpos, headerEvents, cpuKwargs]

/-- With a non-positive batch size the batch count degenerates to zero
(in the model; the real `DataLoader` refuses to be constructed). -/
theorem numBatches_eq_zero_of_nonpos (n : Nat) (bs : Int) (h : bs ≤ 0) :
    numBatches n bs = 0 := by
  rw [numBatches, Int.toNat_of_nonpos h]
  simp

/-- A `flatMap` whose body is nonempty only at one element of a
`Nodup` list collapses to that body. -/
theorem flatMap_ite_single {α : Type} (l : List Nat) (e : Nat) (f : Nat → List α)
    (he : e ∈ l) (hnd : l.Nodup) :
    (l.flatMap fun x => if x = e then f x else []) = f e := by
  induction l with
  | nil => cases he
  | cons a l ih =>
    rcases List.nodup_cons.mp hnd with ⟨ha, hl⟩
    rcases List.mem_cons.mp he with h | h
    · subst h
      have hnil : (l.flatMap fun x => if x = e then f x else []) = [] := by
        apply List.flatMap_eq_nil_iff.mpr
        intro x hx
        exact if_neg fun hxeq => ha (by rw [hxeq] at hx; exact hx)
      simp [List.flatMap_cons, hnil]
    · have hne : a ≠ e := fun hae => ha (by rw [hae]; exact h)
      rw [List.flatMap_cons, if_neg hne, List.nil_append, ih h hl]

/-- A `flatMap` whose body is empty everywhere on the list is empty. -/
theorem flatMap_ite_none {α : Type} (l : List Nat) (e : Nat) (f : Nat → List α)
    (he : e ∉ l) :
    (l.flatMap fun x => if x = e then f x else []) = [] := by
  apply List.flatMap_eq_nil_iff.mpr
  intro x hx
  exact if_neg fun hxe => he (by rw [hxe] at hx; exact hx)

/-- Epoch-`e` filter of one batch body. -/
theorem filter_epochRelated_batchEvents (e e' b : Nat) :
    (batchEvents e' b).filter (epochRelated e) =
      if e' = e then batchEvents e' b else [] := by
  by_cases h : e' = e
  · subst h; simp [batchEvents, closureEvents, epochRelated]
  · simp [batchEvents, closureEvents, epochRelated, h]

/-- Epoch-`e` filter of one epoch body. -/
theorem filter_epochRelated_epochEvents (nb e e' : Nat) :
    (epochEvents nb e').filter (epochRelated e) =
      if e' = e then epochEvents nb e' else [] := by
  by_cases h : e' = e
  · subst h
    simp [epochEvents, epochRelated, List.filter_flatMap, filter_epochRelated_batchEvents]
  · simp [epochEvents, epochRelated, h, List.filter_flatMap, filter_epochRelated_batchEvents]

/-- Epoch-`e` filter of the whole loop: exactly the body of epoch `e`. -/
theorem filter_epochRelated_loopEvents (epochs nb e : Nat) (he : e < epochs) :
    (loopEvents epochs nb).filter (epochRelated e) = epochEvents nb e := by
  rw [loopEvents, List.filter_flatMap]
  have h1 : ((List.range epochs).flatMap fun x => (epochEvents nb x).filter (epochRelated e)) =
      (List.range epochs).flatMap fun x => if x = e then epochEvents nb x else [] := by
    simp only [filter_epochRelated_epochEvents]
  rw [h1, flatMap_ite_single (List.range epochs) e _ (List.mem_range.mpr he) (List.nodup_range epochs)]

/-- Step filter of one batch body: the optimizer step and its closure. -/
theorem filter_stepRelated_batchEvents (e b e' b' : Nat) :
    (batchEvents e' b').filter (stepRelated e b) =
      if e' = e ∧ b' = b then Event.optimStep e b :: closureEvents e b else [] := by
  by_cases h1 : e' = e
  · by_cases h2 : b' = b
    · subst h1; subst h2; simp [batchEvents, closureEvents, stepRelated]
    · simp [batchEvents, closureEvents, stepRelated, h1, h2]
  · simp [batchEvents, closureEvents, stepRelated, h1]

/-- Step filter of one epoch body. -/
theorem filter_stepRelated_epochEvents (nb e b e' : Nat) :
    (epochEvents nb e').filter (stepRelated e b) =
      if e' = e ∧ b < nb then Event.optimStep e b :: closureEvents e b else [] := by
  rw [epochEvents, List.filter_cons]
  have hse : stepRelated e b (Event.setEpoch e') = false := rfl
  rw [hse]
  simp only [Bool.false_eq_true, if_false, List.filter_flatMap, filter_stepRelated_batchEvents]
  by_cases h1 : e' = e
  · subst h1
    simp only [true_and, eq_self_iff_true]
    by_cases h2 : b < nb
    · rw [flatMap_ite_single (List.range nb) b _ (List.mem_range.mpr h2) (List.nodup_range nb)]
      simp [h2]
    · rw [flatMap_ite_none (List.range nb) b _ (by simp [h2])]
      simp [h2]
  · simp [h1]

/-- Step filter of the whole loop: exactly the one step of batch `b`
in epoch `e`, when both indices are in range. -/
theorem filter_stepRelated_loopEvents (epochs nb e b : Nat) :
    (loopEvents epochs nb).filter (stepRelated e b) =
      if e < epochs ∧ b < nb then Event.optimStep e b :: closureEvents e b else [] := by
  rw [loopEvents, List.filter_flatMap]
  simp only [filter_stepRelated_epochEvents]
  by_cases h2 : b < nb
  · simp only [h2, and_true]
    by_cases h1 : e < epochs
    · rw [flatMap_ite_single (List.range epochs) e _ (List.mem_range.mpr h1)
        (List.nodup_range epochs)]
      simp [h1]
    · rw [flatMap_ite_none (List.range epochs) e _ (by simp [h1])]
      simp [h1]
  · simp [h2]

/-- The training loop constructs no sharded optimizer: `mkOSS` events
occur only in the header. -/
theorem mkOSS_not_mem_loopEvents (o : String) (l : Rat) (epochs nb : Nat) :
    Event.mkOSS o l ∉ loopEvents epochs nb := by
  simp [loopEvents, epochEvents, batchEvents, closureEvents, List.mem_flatMap]

/-- Supplying `--batch_size v` overrides just that field. -/
theorem parse_override_batch_size (s : String) (n : Int) (h : pyInt? s = some n) :
    parseArgs ["--batch_size", s] = some { defaultArgs with batch_size := n } := by
  simp [parseArgs, parseArgsFrom, h]

/-- Supplying `--test_batch_size v` overrides just that field. -/
theorem parse_override_test_batch_size (s : String) (n : Int) (h : pyInt? s = some n) :
    parseArgs ["--test_batch_size", s] = some { defaultArgs with test_batch_size := n } := by
  simp [parseArgs, parseArgsFrom, h]

/-- Supplying `--epochs v` overrides just that field. -/
theorem parse_override_epochs (s : String) (n : Int) (h : pyInt? s = some n) :
    parseArgs ["--epochs", s] = some { defaultArgs with epochs := n } := by
  simp [parseArgs, parseArgsFrom, h]

/-- Supplying `--lr v` overrides just that field. -/
theorem parse_override_lr (s : String) (x : Rat) (h : pyFloat? s = some x) :
    parseArgs ["--lr", s] = some { defaultArgs with lr := x } := by
  simp [parseArgs, parseArgsFrom, h]

/-- Supplying `--gamma v` overrides just that field. -/
theorem parse_override_gamma (s : String) (x : Rat) (h : pyFloat? s = some x) :
    parseArgs ["--gamma", s] = some { defaultArgs with gamma := x } := by
  simp [parseArgs, parseArgsFrom, h]

/-- Supplying `--seed v` overrides just that field. -/
theorem parse_override_seed (s : String) (n : Int) (h : pyInt? s = some n) :
    parseArgs ["--seed", s] = some { defaultArgs with seed := n } := by
  simp [parseArgs, parseArgsFrom, h]

/-- Supplying `--log_interval v` overrides just that field. -/
theorem parse_override_log_interval (s : String) (n : Int) (h : pyInt? s = some n) :
    parseArgs ["--log_interval", s] = some { defaultArgs with log_interval := n } := by
  simp [parseArgs, parseArgsFrom, h]

/-- A bare (non-flag) numeric token on the command line is rejected. -/
theorem parse_positional_reject (s : String) (n : Int) (h : pyInt? s = some n) :
    parseArgs [s] = none := by
  have h1 : s ≠ "--no_cuda" := fun hs => by
    rw [hs, show pyInt? ("--no_cuda") = none from by decide] at h; cases h
  have h2 : s ≠ "--dry_run" := fun hs => by
    rw [hs, show pyInt? ("--dry_run") = none from by decide] at h; cases h
  have h3 : s ≠ "--save_model" := fun hs => by
    rw [hs, show pyInt? ("--save_model") = none from by decide] at h; cases h
  simp [parseArgs, parseArgsFrom, h1, h2, h3]

/-- Concrete evaluation of the float parser at `0.5`. -/
theorem pyFloat_half : pyFloat? ("0.5") = some (1 / 2) := by
  simp +decide only [pyFloat?, splitAtDot, natOfDigits, digitsVal, Char.isDigit]
  norm_num [show ('0'.toNat - 48 : Nat) = 0 from by decide,
    show ('5'.toNat - 48 : Nat) = 5 from by decide]

/-- Concrete evaluation of the float parser at `0.25`. -/
theorem pyFloat_quarter : pyFloat? ("0.25") = some (1 / 4) := by
  simp +decide only [pyFloat?, splitAtDot, natOfDigits, digitsVal, Char.isDigit]
  norm_num [show ('0'.toNat - 48 : Nat) = 0 from by decide,
    show ('2'.toNat - 48 : Nat) = 2 from by decide,
    show ('5'.toNat - 48 : Nat) = 5 from by decide]

/-- Concrete evaluation of the float parser at `1.5`. -/
theorem pyFloat_threehalves : pyFloat? ("1.5") = some (3 / 2) := by
  simp +decide only [pyFloat?, splitAtDot, natOfDigits, digitsVal, Char.isDigit]
  norm_num [show ('1'.toNat - 48 : Nat) = 1 from by decide,
    show ('5'.toNat - 48 : Nat) = 5 from by decide]

/-! Claims -/

/-- C3: parsing an empty command line yields the documented default
configuration (batch_size=64, test_batch_size=1000, epochs=14, lr=1.0,
gamma=0.7, no_cuda=False, dry_run=False, seed=1, log_interval=10,
save_model=False), and supplying any of the ten flags on the command
line overrides the corresponding field with the supplied value. -/
theorem claim_C3_defaults_and_overrides
    (s1 s2 s3 s4 s5 s6 s7 : String) (n1 n2 n3 n6 n7 : Int) (x4 x5 : Rat)
    (h1 : pyInt? s1 = some n1) (h2 : pyInt? s2 = some n2) (h3 : pyInt? s3 = some n3)
    (h4 : pyFloat? s4 = some x4) (h5 : pyFloat? s5 = some x5)
    (h6 : pyInt? s6 = some n6) (h7 : pyInt? s7 = some n7) :
    parseArgs [] = some defaultArgs
    ∧ parseArgs ["--batch_size", s1] = some { defaultArgs with batch_size := n1 }
    ∧ parseArgs ["--test_batch_size", s2] = some { defaultArgs with test_batch_size := n2 }
    ∧ parseArgs ["--epochs", s3] = some { defaultArgs with epochs := n3 }
    ∧ parseArgs ["--lr", s4] = some { defaultArgs with lr := x4 }
    ∧ parseArgs ["--gamma", s5] = some { defaultArgs with gamma := x5 }
    ∧ parseArgs ["--no_cuda"] = some { defaultArgs with no_cuda := true }
    ∧ parseArgs ["--dry_run"] = some { defaultArgs with dry_run := true }
    ∧ parseArgs ["--seed", s6] = some { defaultArgs with seed := n6 }
    ∧ parseArgs ["--log_interval", s7] = some { defaultArgs with log_interval := n7 }
    ∧ parseArgs ["--save_model"] = some { defaultArgs with save_model := true } :=
  ⟨rfl, parse_override_batch_size s1 n1 h1, parse_override_test_batch_size s2 n2 h2,
   parse_override_epochs s3 n3 h3, parse_override_lr s4 x4 h4, parse_override_gamma s5 x5 h5,
   rfl, rfl, parse_override_seed s6 n6 h6, parse_override_log_interval s7 n7 h7, rfl⟩

/-- Witness for C3 at concrete command lines. -/
theorem claim_C3_witness :
    pyInt? ("128") = some 128 ∧ pyInt? ("500") = some 500 ∧ pyInt? ("5") = some 5
    ∧ pyFloat? ("0.5") = some (1 / 2) ∧ pyFloat? ("0.25") = some (1 / 4)
    ∧ pyInt? ("7") = some 7 ∧ pyInt? ("3") = some 3
    ∧ (parseArgs [] = some defaultArgs
       ∧ parseArgs ["--batch_size", "128"] = some { defaultArgs with batch_size := 128 }
       ∧ parseArgs ["--test_batch_size", "500"] = some { defaultArgs with test_batch_size := 500 }
       ∧ parseArgs ["--epochs", "5"] = some { defaultArgs with epochs := 5 }
       ∧ parseArgs ["--lr", "0.5"] = some { defaultArgs with lr := 1 / 2 }
       ∧ parseArgs ["--gamma", "0.25"] = some { defaultArgs with gamma := 1 / 4 }
       ∧ parseArgs ["--no_cuda"] = some { defaultArgs with no_cuda := true }
       ∧ parseArgs ["--dry_run"] = some { defaultArgs with dry_run := true }
       ∧ parseArgs ["--seed", "7"] = some { defaultArgs with seed := 7 }
       ∧ parseArgs ["--log_interval", "3"] = some { defaultArgs with log_interval := 3 }
       ∧ parseArgs ["--save_model"] = some { defaultArgs with save_model := true }) :=
  ⟨by decide, by decide, by decide, pyFloat_half, pyFloat_quarter, by decide, by decide,
   claim_C3_defaults_and_overrides ("128") ("500") ("5") ("0.5") ("0.25") ("7") ("3")
     128 500 5 7 3 (1 / 2) (1 / 4)
     (by decide) (by decide) (by decide) pyFloat_half pyFloat_quarter (by decide) (by decide)⟩

/-- C4 counterexample: the flags are NOT consumed positionally — a bare
positional value is rejected by the parser, while the same value
supplied as a named `--` option is accepted. -/
theorem claim_C4_counterexample :
    parseArgs ["128"] = none
    ∧ parseArgs ["--batch_size", "128"] = some { defaultArgs with batch_size := 128 } :=
  ⟨rfl, rfl⟩

/-- C4 (amended): the ten CLI flags are all parsed as named `--`
options into the configuration object — the `store_true` flags consume
one token and the valued flags consume a flag/value token pair — and a
value supplied positionally (without its flag name) is rejected. -/
theorem claim_C4_named_options (s t : String) (n : Int) (x : Rat)
    (hi : pyInt? s = some n) (hf : pyFloat? t = some x) :
    parseArgs [s] = none
    ∧ parseArgs ["--batch_size", s] = some { defaultArgs with batch_size := n }
    ∧ parseArgs ["--test_batch_size", s] = some { defaultArgs with test_batch_size := n }
    ∧ parseArgs ["--epochs", s] = some { defaultArgs with epochs := n }
    ∧ parseArgs ["--lr", t] = some { defaultArgs with lr := x }
    ∧ parseArgs ["--gamma", t] = some { defaultArgs with gamma := x }
    ∧ parseArgs ["--no_cuda"] = some { defaultArgs with no_cuda := true }
    ∧ parseArgs ["--dry_run"] = some { defaultArgs with dry_run := true }
    ∧ parseArgs ["--seed", s] = some { defaultArgs with seed := n }
    ∧ parseArgs ["--log_interval", s] = some { defaultArgs with log_interval := n }
    ∧ parseArgs ["--save_model"] = some { defaultArgs with save_model := true } :=
  ⟨parse_positional_reject s n hi, parse_override_batch_size s n hi,
   parse_override_test_batch_size s n hi, parse_override_epochs s n hi,
   parse_override_lr t x hf, parse_override_gamma t x hf, rfl, rfl,
   parse_override_seed s n hi, parse_override_log_interval s n hi, rfl⟩

/-- Witness for the amended C4 at a concrete command line. -/
theorem claim_C4_witness :
    pyInt? ("99") = some 99 ∧ pyFloat? ("1.5") = some (3 / 2)
    ∧ parseArgs ["99"] = none
    ∧ parseArgs ["--seed", "99"] = some { defaultArgs with seed := 99 }
    ∧ parseArgs ["--lr", "1.5"] = some { defaultArgs with lr := 3 / 2 } :=
  ⟨by decide, pyFloat_threehalves,
   (claim_C4_named_options ("99") ("1.5") 99 (3 / 2) (by decide) pyFloat_threehalves).1,
   (claim_C4_named_options ("99") ("1.5") 99 (3 / 2) (by decide) pyFloat_threehalves).2.2.2.2.2.2.2.2.1,
   (claim_C4_named_options ("99") ("1.5") 99 (3 / 2) (by decide) pyFloat_threehalves).2.2.2.2.1⟩

/-- C7: for every batch of 1-channel 28×28 inputs, `Net.forward`
produces an output whose class dimension has size 10. -/
theorem claim_C7_net_output_classes (b : Nat) :
    Net.forwardShape [b, 1, 28, 28] = some [b, 10] := by
  simp [Net.forwardShape, conv2dShape, reluShape, maxPool2dShape, dropout2dShape,
    flattenFrom1Shape, linearShape, logSoftmaxShape]

/-- Witness for C7 at a concrete batch size. -/
theorem claim_C7_witness : Net.forwardShape [1, 1, 28, 28] = some [1, 10] :=
  claim_C7_net_output_classes 1

/-- C2: whenever `use_cuda` is true, the DataLoader kwargs contain both
the sampler and `shuffle=True`, a mutually exclusive combination, so
`DataLoader` construction raises and the training loop is never
reached. -/
theorem claim_C2_cuda_loader_error (rank : Nat) (args : Args) (env : Env) (n : Nat)
    (hd : env.distInitRes = Except.ok ()) (hs : env.setDeviceRes = Except.ok ())
    (hn : env.datasetRes = Except.ok n) :
    Event.mkDataLoader (cudaKwargs args.batch_size) ∈ (train rank args true env).1
    ∧ (cudaKwargs args.batch_size).sampler = true
    ∧ (cudaKwargs args.batch_size).shuffle = true
    ∧ (train rank args true env).2 = Except.error ("sampler option is mutually exclusive with shuffle")
    ∧ ∀ e b, Event.optimStep e b ∉ (train rank args true env).1 := by
  have htr : train rank args true env =
      ([Event.printBackend (backendName env.cudaAvailable),
        Event.distInit (backendName env.cudaAvailable) rank WORLD_SIZE,
        Event.setDevice rank, Event.loadDataset, Event.mkSampler WORLD_SIZE rank,
        Event.mkDataLoader (cudaKwargs args.batch_size)],
       Except.error ("sampler option is mutually exclusive with shuffle")) := by
    simp [train, hd, hs, hn, dataLoaderCheck, cudaKwargs]
  refine ⟨?_, rfl, rfl, ?_, ?_⟩
  · rw [htr]; simp
  · rw [htr]
  · intro e b; rw [htr]; simp

/-- Witness for C2 in a concrete all-successful CUDA environment. -/
theorem claim_C2_witness :
    envC.distInitRes = Except.ok () ∧ envC.setDeviceRes = Except.ok ()
    ∧ envC.datasetRes = Except.ok 4
    ∧ (train 0 defaultArgs true envC).2 =
        Except.error ("sampler option is mutually exclusive with shuffle")
    ∧ Event.optimStep 0 0 ∉ (train 0 defaultArgs true envC).1 :=
  ⟨rfl, rfl, rfl,
   (claim_C2_cuda_loader_error 0 defaultArgs envC 4 rfl rfl rfl).2.2.2.1,
   (claim_C2_cuda_loader_error 0 defaultArgs envC 4 rfl rfl rfl).2.2.2.2 0 0⟩

/-- C5: in a run with a valid (positive) batch size — otherwise the
`DataLoader` refuses construction and the loop is never entered — for
every epoch index `e` in `range(args.epochs)`, the training loop calls
`sampler.set_epoch(e)` before iterating that epoch's batches: among
all events of epoch `e`, the first is `setEpoch e`, and it occurs
exactly once, followed by the batch-loop bodies. -/
theorem claim_C5_set_epoch_first (rank : Nat) (args : Args) (env : Env) (n e : Nat)
    (hd : env.distInitRes = Except.ok ()) (hn : env.datasetRes = Except.ok n)
    (hbs : 0 < args.batch_size) (he : e < args.epochs.toNat) :
    (train rank args false env).1.filter (epochRelated e) =
      Event.setEpoch e ::
        (List.range (numBatches n args.batch_size)).flatMap (batchEvents e) := by
  rw [train_ok_cpu rank args env n hd hn hbs]
  dsimp only
  rw [List.filter_append, List.filter_append,
    filter_epochRelated_loopEvents _ _ e he]
  have hh : (headerEvents env.cudaAvailable rank args.batch_size).filter (epochRelated e) = [] := by
    simp [headerEvents, epochRelated]
  rw [hh]
  simp [epochRelated, epochEvents]

/-- Witness for C5: a one-epoch run in a concrete environment. -/
theorem claim_C5_witness :
    envB.distInitRes = Except.ok () ∧ envB.datasetRes = Except.ok 4
    ∧ 0 < argsOneEpoch.batch_size ∧ 0 < argsOneEpoch.epochs.toNat
    ∧ (train 0 argsOneEpoch false envB).1.filter (epochRelated 0) =
        Event.setEpoch 0 ::
          (List.range (numBatches 4 argsOneEpoch.batch_size)).flatMap (batchEvents 0) :=
  ⟨rfl, rfl, by decide, by decide,
   claim_C5_set_epoch_first 0 argsOneEpoch envB 4 0 rfl rfl (by decide) (by decide)⟩

/-- C6: for every batch of every epoch of a completed run, there is
exactly one optimizer step, performed by passing a closure, and the
closure's body is, in order: zero the gradients, forward pass, loss
computation, backward pass (the closure then returns the loss). -/
theorem claim_C6_one_step_per_batch (rank : Nat) (args : Args) (env : Env) (n e b : Nat)
    (hd : env.distInitRes = Except.ok ()) (hn : env.datasetRes = Except.ok n)
    (he : e < args.epochs.toNat) (hb : b < numBatches n args.batch_size) :
    (train rank args false env).1.filter (stepRelated e b) =
      Event.optimStep e b :: closureEvents e b
    ∧ List.count (Event.optimStep e b) (train rank args false env).1 = 1
    ∧ closureEvents e b =
        [Event.zeroGrad e b, Event.forward e b, Event.computeLoss e b, Event.backward e b] := by
  have hbs : 0 < args.batch_size := by
    by_contra hc
    push_neg at hc
    rw [numBatches_eq_zero_of_nonpos n _ hc] at hb
    exact absurd hb (Nat.not_lt_zero b)
  have hfil : (train rank args false env).1.filter (stepRelated e b) =
      Event.optimStep e b :: closureEvents e b := by
    rw [train_ok_cpu rank args env n hd hn hbs]
    dsimp only
    rw [List.filter_append, List.filter_append,
      filter_stepRelated_loopEvents _ _ e b]
    have hh : (headerEvents env.cudaAvailable rank args.batch_size).filter (stepRelated e b)
        = [] := by
      simp [headerEvents, stepRelated]
    rw [hh, if_pos ⟨he, hb⟩]
    simp [stepRelated]
  refine ⟨hfil, ?_, rfl⟩
  have hp : stepRelated e b (Event.optimStep e b) = true := by simp [stepRelated]
  rw [← List.count_filter hp, hfil]
  simp [closureEvents, List.count_cons]

/-- Witness for C6: the single batch of a concrete one-epoch run. -/
theorem claim_C6_witness :
    envB.distInitRes = Except.ok () ∧ envB.datasetRes = Except.ok 4
    ∧ 0 < argsOneEpoch.epochs.toNat ∧ 0 < numBatches 4 argsOneEpoch.batch_size
    ∧ List.count (Event.optimStep 0 0) (train 0 argsOneEpoch false envB).1 = 1 :=
  ⟨rfl, rfl, by decide, by decide,
   (claim_C6_one_step_per_batch 0 argsOneEpoch envB 4 0 0 rfl rfl (by decide) (by decide)).2.1⟩

/-- C8: a single-epoch run with a valid (positive) batch size in
which the framework calls succeed completes without error (outcome `ok`, the Python function returns
`None`), and the elapsed value computed from the monotonic clock and
printed as "Total Time:" — an exact rational here, hence finite — is
non-negative. -/
theorem claim_C8_completes_nonneg_time (rank : Nat) (args : Args) (env : Env) (n : Nat)
    (hd : env.distInitRes = Except.ok ()) (hn : env.datasetRes = Except.ok n)
    (hmono : ∀ i j : Nat, i ≤ j → env.clock i ≤ env.clock j)
    (hbs : 0 < args.batch_size) (hep : args.epochs = 1) :
    (train rank args false env).2 = Except.ok ()
    ∧ (train rank args false env).1.getLast? =
        some (Event.printTotalTime (env.clock 3 - env.clock 0))
    ∧ 0 ≤ env.clock 3 - env.clock 0 := by
  have htr := train_ok_cpu rank args env n hd hn hbs
  have h3 : 2 * args.epochs.toNat + 1 = 3 := by rw [hep]; rfl
  refine ⟨?_, ?_, ?_⟩
  · rw [htr]
  · rw [htr]; dsimp only; rw [h3, List.getLast?_concat]
  · exact sub_nonneg.mpr (hmono 0 3 (by norm_num))

/-- Witness for C8 in a concrete environment with an advancing clock. -/
theorem claim_C8_witness :
    envB.distInitRes = Except.ok () ∧ envB.datasetRes = Except.ok 4
    ∧ 0 < argsOneEpoch.batch_size ∧ argsOneEpoch.epochs = 1
    ∧ (train 0 argsOneEpoch false envB).2 = Except.ok ()
    ∧ 0 ≤ envB.clock 3 - envB.clock 0 :=
  ⟨rfl, rfl, by decide, rfl,
   (claim_C8_completes_nonneg_time 0 argsOneEpoch envB 4 rfl rfl
     (fun i j h => by simpa [envB, okEnv] using (Nat.cast_le (α := Rat)).mpr h)
     (by decide) rfl).1,
   (claim_C8_completes_nonneg_time 0 argsOneEpoch envB 4 rfl rfl
     (fun i j h => by simpa [envB, okEnv] using (Nat.cast_le (α := Rat)).mpr h)
     (by decide) rfl).2.2⟩

/-- C9: `train` installs no exception handler: whichever external
framework call fails first (process-group initialization, device
selection, dataset download), its error propagates to `train`'s caller
unchanged, with no retry, recovery, or translation; on success `train`
returns only `()` (the Python function has no return value). -/
theorem claim_C9_fail_fast (rank : Nat) (args : Args) (cuda : Bool) (env : Env) (e : String) :
    (env.distInitRes = Except.error e → (train rank args cuda env).2 = Except.error e)
    ∧ (env.distInitRes = Except.ok () → cuda = true → env.setDeviceRes = Except.error e →
        (train rank args cuda env).2 = Except.error e)
    ∧ (env.distInitRes = Except.ok () → (cuda = true → env.setDeviceRes = Except.ok ()) →
        env.datasetRes = Except.error e → (train rank args cuda env).2 = Except.error e) := by
  refine ⟨?_, ?_, ?_⟩
  · intro h; simp [train, h]
  · intro h1 h2 h3; subst h2; simp [train, h1, h3]
  · intro h1 h2 h3
    cases cuda
    · simp [train, h1, h3]
    · have h4 := h2 rfl
      simp [train, h1, h4, h3]

/-- Witness for C9: a concrete failing process-group initialization. -/
theorem claim_C9_witness :
    envInitFail.distInitRes = Except.error ("init failed")
    ∧ (train 0 defaultArgs false envInitFail).2 = Except.error ("init failed") :=
  ⟨rfl, (claim_C9_fail_fast 0 defaultArgs false envInitFail ("init failed")).1 rfl⟩

/-- C10: the behaviour of `train` depends on its arguments only through
`batch_size` and `epochs` — two argument objects agreeing on those two
fields produce identical runs, regardless of lr, gamma,
test_batch_size, dry_run, seed, log_interval and save_model — and
every sharded-optimizer construction in any run uses Adadelta with the
hard-coded learning rate 1e-4, never `args.lr`. -/
theorem claim_C10_unused_flags (rank : Nat) (cuda : Bool) (env : Env)
    (a1 a2 : Args) (hbs : a1.batch_size = a2.batch_size) (hep : a1.epochs = a2.epochs) :
    train rank a1 cuda env = train rank a2 cuda env
    ∧ ∀ o l, Event.mkOSS o l ∈ (train rank a1 cuda env).1 →
        o = "Adadelta" ∧ l = 1 / 10000 := by
  constructor
  · obtain ⟨bs1, tbs1, ep1, lr1, g1, nc1, dr1, sd1, li1, sm1⟩ := a1
    obtain ⟨bs2, tbs2, ep2, lr2, g2, nc2, dr2, sd2, li2, sm2⟩ := a2
    dsimp at hbs hep
    subst hbs; subst hep
    rfl
  · intro o l h
    revert h
    rcases hdi : env.distInitRes with e | u
    · simp [train, hdi]
    · cases u
      cases cuda
      · rcases hds : env.datasetRes with e | n
        · simp [train, hdi, hds]
        · by_cases hbs : a1.batch_size ≤ 0
          · simp [train, hdi, hds, dataLoaderCheck, hbs]
          · simp [train, hdi, hds, dataLoaderCheck, hbs, mkOSS_not_mem_loopEvents]
      · rcases hsd : env.setDeviceRes with e | u2
        · simp [train, hdi, hsd]
        · cases u2
          rcases hds : env.datasetRes with e | n
          · simp [train, hdi, hsd, hds]
          · simp [train, hdi, hsd, hds, dataLoaderCheck]

/-- Witness for C10: two concrete argument objects differing in lr,
gamma, seed and dry_run produce the same run. -/
theorem claim_C10_witness :
    argsLrZero.batch_size = defaultArgs.batch_size
    ∧ argsLrZero.epochs = defaultArgs.epochs
    ∧ train 0 argsLrZero false envB = train 0 defaultArgs false envB
    ∧ (Event.mkOSS ("Adadelta") (1 / 10000) ∈ (train 0 argsLrZero false envB).1 →
        "Adadelta" = "Adadelta" ∧ (1 / 10000 : Rat) = 1 / 10000) :=
  ⟨rfl, rfl,
   (claim_C10_unused_flags 0 false envB argsLrZero defaultArgs rfl rfl).1,
   (claim_C10_unused_flags 0 false envB argsLrZero defaultArgs rfl rfl).2
     "Adadelta" (1 / 10000)⟩

/-- C1 counterexample: two invocations of `train` with identical rank,
arguments and CUDA flag, whose ambient monotonic clocks return
different readings, print different "Total Time:" values — so `train`
is not a function of (rank, args, flag) alone. -/
theorem claim_C1_counterexample :
    train 0 argsOneEpoch false envA ≠ train 0 argsOneEpoch false envB := by
  intro h
  have h1 := congrArg (fun p => p.1.getLast?) h
  rw [train_ok_cpu 0 argsOneEpoch envA 4 rfl rfl (by decide),
    train_ok_cpu 0 argsOneEpoch envB 4 rfl rfl (by decide)] at h1
  simp only [List.getLast?_concat, Option.some.injEq, Event.printTotalTime.injEq] at h1
  simp [envA, envB, okEnv, argsOneEpoch, defaultArgs] at h1

/-- C1 (amended): `train` is deterministic in its inputs together with
the ambient environment: for a fixed rank, arguments and CUDA flag, two
invocations whose environments agree on CUDA availability and on the
outcome of every framework call execute the same run — identical
outcome and identical event trace up to the wall-clock value carried by
the final "Total Time:" print, which depends on the clock readings and
not on the inputs. -/
theorem claim_C1_deterministic_given_env (rank : Nat) (args : Args) (cuda : Bool)
    (env1 env2 : Env)
    (hca : env1.cudaAvailable = env2.cudaAvailable)
    (hdi : env1.distInitRes = env2.distInitRes)
    (hsd : env1.setDeviceRes = env2.setDeviceRes)
    (hds : env1.datasetRes = env2.datasetRes) :
    (train rank args cuda env1).1.map scrubEvent = (train rank args cuda env2).1.map scrubEvent
    ∧ (train rank args cuda env1).2 = (train rank args cuda env2).2 := by
  obtain ⟨ca1, di1, sd1, ds1, c1⟩ := env1
  obtain ⟨ca2, di2, sd2, ds2, c2⟩ := env2
  dsimp at hca hdi hsd hds
  subst hca; subst hdi; subst hsd; subst hds
  cases di1 with
  | error e => simp [train]
  | ok u =>
    cases u
    cases cuda
    · cases ds1 with
      | error e => simp [train]
      | ok n =>
        by_cases hbs : args.batch_size ≤ 0
        · simp [train, dataLoaderCheck, hbs, scrubEvent]
        · simp [train, dataLoaderCheck, hbs, scrubEvent, List.map_append]
    · cases sd1 with
      | error e => simp [train]
      | ok u2 =>
        cases u2
        cases ds1 with
        | error e => simp [train]
        | ok n => simp [train, dataLoaderCheck, scrubEvent, List.map_append]

/-- Witness for the amended C1: the two concrete environments of the
counterexample — same call outcomes, different clocks — yield the same
outcome and the same trace up to the printed time. -/
theorem claim_C1_witness :
    envA.cudaAvailable = envB.cudaAvailable
    ∧ envA.distInitRes = envB.distInitRes
    ∧ envA.setDeviceRes = envB.setDeviceRes
    ∧ envA.datasetRes = envB.datasetRes
    ∧ (train 0 argsOneEpoch false envA).1.map scrubEvent =
        (train 0 argsOneEpoch false envB).1.map scrubEvent
    ∧ (train 0 argsOneEpoch false envA).2 = (train 0 argsOneEpoch false envB).2 :=
  ⟨rfl, rfl, rfl, rfl,
   (claim_C1_deterministic_given_env 0 argsOneEpoch false envA envB rfl rfl rfl rfl).1,
   (claim_C1_deterministic_given_env 0 argsOneEpoch false envA envB rfl rfl rfl rfl).2⟩

end Mnist
